import Mathlib

/-!
Verification development for the podcast-generator admin console.

The repository is a browser UI around one external table (autoworkflow).
Two pieces carry the logic the specification describes:

* the episodes list component (source file of unknown name): dynamic rows,
  a three-state sort cycle per column, and a type-sniffing cell comparator;
* the submission form component (podcast-form.tsx): the polling / real-time
  state machine that tracks one in-flight script-generation request, the
  webhook call, the approval action, and the Generate Audio gate.

Both are shallowly embedded below.  Network calls are made explicit: a
store query becomes a pure function of a snapshot of the table (a list of
records), a webhook call becomes a parameter describing its outcome, and
browser timers become explicit transition functions.  All state writes of
a handler (React setState calls and ref mutations) are collapsed into one
pure state-to-state function per handler, which is the handler body read
top to bottom.
-/

/-! ## JavaScript value model

String operations are implemented over the character list underlying a
string so that every definition evaluates by kernel reduction. -/

/-- Models the JavaScript String.prototype.trim: leading and trailing
whitespace removed. -/
def jsTrim (s : String) : String :=
  String.mk (((s.data.dropWhile Char.isWhitespace).reverse.dropWhile
    Char.isWhitespace).reverse)

/-- JavaScript truthiness of an optional string: null, undefined and the
empty string are falsy; every other string is truthy. -/
def truthy (v : Option String) : Bool :=
  match v with
  | none => false
  | some s => !(s.data.isEmpty)

/-- Models the expression (x || null) applied to an optional string: a
falsy value (null, undefined or the empty string) collapses to null. -/
def orNull (v : Option String) : Option String :=
  if truthy v then v else none

/-- From the source (podcast-form.tsx, isValidScriptLink): a script link is
valid when it is neither null nor undefined and is non-empty after
trimming. -/
def isValidScriptLink (link : Option String) : Bool :=
  match link with
  | none => false
  | some s => !((jsTrim s).data.isEmpty)

/-- A dynamic cell value as the list component sees it: null (also standing
for undefined, which the comparator treats identically), a number, or a
string. -/
inductive JsValue where
  | null
  | num (n : Int)
  | str (s : String)
deriving DecidableEq, Repr

/-- Digit-string parser over a character list: nonempty all-digit lists
only. -/
def digitsToNat (l : List Char) : Option Nat :=
  if !l.isEmpty && l.all (fun c => c.isDigit) then
    some (l.foldl (fun acc c => acc * 10 + (c.toNat - 48)) 0)
  else none

/-- Integer parser for a trimmed character list: an optional leading minus
sign followed by digits. -/
def parseIntChars (l : List Char) : Option Int :=
  match l with
  | '-' :: rest => (digitsToNat rest).map (fun n => -(n : Int))
  | _ => (digitsToNat l).map (fun n => (n : Int))

/-- Models the JavaScript Number conversion on strings, restricted to
integer literals: a blank string converts to 0, an optionally signed digit
string converts to its value, and anything else is NaN (none). -/
def jsStringToNumber (s : String) : Option Int :=
  let t := (jsTrim s).data
  if t.isEmpty then some 0 else parseIntChars t

/-- Models the JavaScript Number conversion on cell values; none is NaN. -/
def jsNumberOf (v : JsValue) : Option Int :=
  match v with
  | .null => some 0
  | .num n => some n
  | .str s => jsStringToNumber s

/-- Splits a character list at every dash. -/
def splitOnDash : List Char → List (List Char)
  | [] => [[]]
  | c :: cs =>
    match splitOnDash cs with
    | [] => [[]]
    | g :: gs => if c = '-' then [] :: g :: gs else (c :: g) :: gs

/-- Models the JavaScript Date parser restricted to ISO date-only strings
of the shape YYYY-MM-DD; the result is an integer encoding that is
strictly monotone in the calendar date.  Any other string is an invalid
date (none, standing for a NaN time value). -/
def jsDateParse (s : String) : Option Int :=
  match splitOnDash s.data with
  | [y, m, d] =>
    match digitsToNat y, digitsToNat m, digitsToNat d with
    | some yn, some mn, some dn =>
      if y.length = 4 && m.length = 2 && d.length = 2 &&
         1 ≤ mn && mn ≤ 12 && 1 ≤ dn && dn ≤ 31 then
        some ((yn : Int) * 372 + (mn : Int) * 31 + (dn : Int))
      else none
    | _, _, _ => none
  | _ => none

/-- Models the time value of new Date(v) for a cell value; none is NaN. -/
def jsDateOf (v : JsValue) : Option Int :=
  match v with
  | .null => some 0
  | .num n => some n
  | .str s => jsDateParse s

/-- Models the JavaScript String conversion of a cell value. -/
def jsStringOf (v : JsValue) : String :=
  match v with
  | .null => "null"
  | .num n => toString n
  | .str s => s

/-- Models JavaScript String.prototype.toLowerCase. -/
def lowerStr (s : String) : String :=
  String.mk (s.data.map Char.toLower)

/-- Three-way lexicographic comparison of character lists by code points. -/
def cmpCharList : List Char → List Char → Int
  | [], [] => 0
  | [], _ :: _ => -1
  | _ :: _, [] => 1
  | a :: as, b :: bs =>
    if a.toNat < b.toNat then -1
    else if b.toNat < a.toNat then 1
    else cmpCharList as bs

/-- Three-way comparison of strings by code points, the model of the
default localeCompare used by the source. -/
def cmpStr (a b : String) : Int :=
  cmpCharList a.data b.data

/-- From the source (compareValues): null/undefined first in ascending
order, else numeric when both values convert to numbers, else
chronological when both convert to valid dates, else case-insensitive
string comparison. -/
def compareValues (a b : JsValue) (isAsc : Bool) : Int :=
  if a = .null then (if isAsc then -1 else 1)
  else if b = .null then (if isAsc then 1 else -1)
  else
    match jsNumberOf a, jsNumberOf b with
    | some x, some y => if isAsc then x - y else y - x
    | _, _ =>
      match jsDateOf a, jsDateOf b with
      | some x, some y => if isAsc then x - y else y - x
      | _, _ =>
        let sa := lowerStr (jsStringOf a)
        let sb := lowerStr (jsStringOf b)
        if isAsc then cmpStr sa sb else cmpStr sb sa

/-! ## Stable sorting with a JavaScript comparator

Array.prototype.sort with a comparator is a stable sort in which element
a precedes element b whenever the comparator yields a negative value, and
ties (including a NaN comparator result, which the language specification
coerces to +0) keep the original order.  A stable insertion sort models
this. -/

/-- Stable insertion of one element: x is placed before the first element
it does not compare strictly greater than. -/
def insertBy {α : Type} (cmp : α → α → Int) (x : α) : List α → List α
  | [] => [x]
  | y :: ys => if cmp x y ≤ 0 then x :: y :: ys else y :: insertBy cmp x ys

/-- Stable sort by a three-way comparator. -/
def sortBy {α : Type} (cmp : α → α → Int) : List α → List α
  | [] => []
  | x :: xs => insertBy cmp x (sortBy cmp xs)

theorem mem_insertBy {α : Type} (cmp : α → α → Int) (x a : α) :
    ∀ l : List α, a ∈ insertBy cmp x l ↔ a = x ∨ a ∈ l := by
  intro l
  induction l with
  | nil => simp [insertBy]
  | cons y ys ih =>
    simp only [insertBy]
    split
    · simp [or_comm, or_left_comm]
    · simp [ih, or_comm, or_left_comm]

theorem mem_sortBy {α : Type} (cmp : α → α → Int) (a : α) :
    ∀ l : List α, a ∈ sortBy cmp l ↔ a ∈ l := by
  intro l
  induction l with
  | nil => simp [sortBy]
  | cons x xs ih => simp [sortBy, mem_insertBy, ih]

theorem insertBy_ne_nil {α : Type} (cmp : α → α → Int) (x : α) (l : List α) :
    insertBy cmp x l ≠ [] := by
  cases l with
  | nil => simp [insertBy]
  | cons y ys =>
    simp only [insertBy]
    split <;> simp

theorem sortBy_ne_nil {α : Type} (cmp : α → α → Int) (l : List α) (h : l ≠ []) :
    sortBy cmp l ≠ [] := by
  cases l with
  | nil => exact absurd rfl h
  | cons x xs => exact insertBy_ne_nil cmp x (sortBy cmp xs)

/-! ## Episodes list: sort state and sorted view -/

/-- Sort direction of the episodes list ('asc' or 'desc'; the absent
direction is Option.none). -/
inductive SortDir where
  | asc
  | desc
deriving DecidableEq, Repr

/-- Sort state of the episodes list: the active column (null when none)
and the direction (null when none). -/
structure SortState where
  column : Option String
  direction : Option SortDir
deriving DecidableEq, Repr

/-- From the source (handleSort): clicking the column that is already
active cycles null to ascending to descending back to null; clicking a
different column starts ascending on it. -/
def handleSort (column : String) (prevState : SortState) : SortState :=
  if prevState.column = some column then
    match prevState.direction with
    | none => ⟨some column, some SortDir.asc⟩
    | some SortDir.asc => ⟨some column, some SortDir.desc⟩
    | some SortDir.desc => ⟨none, none⟩
  else ⟨some column, some SortDir.asc⟩

/-- A dynamic table row: a finite map from column names to cell values. -/
def Row : Type := List (String × JsValue)

instance : DecidableEq Row := by
  unfold Row
  infer_instance

/-- Reading a column of a row; a missing column reads as undefined, which
the comparator treats as null. -/
def getCol (r : Row) (c : String) : JsValue :=
  ((r.find? (fun p => p.1 == c)).map Prod.snd).getD JsValue.null

/-- From the source (sortedRecords): with no active column or direction
the fetched order is displayed unchanged; otherwise a copy of the record
list is sorted by the comparator on the active column.  A falsy (empty)
column name also leaves the order unchanged. -/
def sortedRecords (records : List Row) (s : SortState) : List Row :=
  match s.column, s.direction with
  | some col, some dir =>
    if col = "" then records
    else sortBy (fun a b => compareValues (getCol a col) (getCol b col)
      (dir = SortDir.asc)) records
  | _, _ => records

/-! ## The autoworkflow record and newest-first selection -/

/-- One row of the external autoworkflow table, restricted to the columns
the submission form reads.  Optional fields are none when the column is
null or absent. -/
structure DbRecord where
  id : String
  created_at : Option String
  episode_interview_file_name : Option String
  episode_interview_script_1 : Option String
  episode_interview_script_2 : Option String
  episode_interview_script_3 : Option String
  episode_interview_script_4 : Option String
  episode_interview_full_script : Option String
  episode_interview_file : Option String
  episode_interview_script_status : Option String
  episode_text_files_status : Option String
  podcast_status : Option String
deriving DecidableEq, Repr

/-- From the source (checkForNewRow and onSubmit, identically): the sort
key of a record is 0 when created_at is falsy (absent or empty), and
otherwise the time value of new Date(created_at) - which is NaN (none)
when the string does not parse as a date. -/
def createdAtKey (r : DbRecord) : Option Int :=
  match r.created_at with
  | none => some 0
  | some s => if s.data.isEmpty then some 0 else jsDateParse s

/-- The key with NaN read as 0, used only to state maximality results on
records whose key is not NaN. -/
def createdAtKeyD (r : DbRecord) : Int :=
  (createdAtKey r).getD 0

/-- The descending-by-created_at comparator of the source.  When either
time value is NaN the subtraction is NaN, which the sort treats as a tie
(the language specification coerces a NaN comparator result to +0). -/
def newestCmp (a b : DbRecord) : Int :=
  match createdAtKey a, createdAtKey b with
  | some ka, some kb => kb - ka
  | _, _ => 0

/-- From the source: sort the matching records newest first and take the
first; none when there are no matching records. -/
def pickMostRecent (l : List DbRecord) : Option DbRecord :=
  (sortBy newestCmp l).head?

/-- Modelled from the spec: the claim reads the selection rule as picking
the record with the greatest created_at timestamp, treating a missing or
unparsable created_at as timestamp 0. -/
def specCreatedAtKey (r : DbRecord) : Int :=
  match r.created_at with
  | none => 0
  | some s => (jsDateParse s).getD 0

theorem head_sortBy_newest : ∀ (l : List DbRecord),
    (∀ r ∈ l, (createdAtKey r).isSome) → ∀ (x : DbRecord),
    (sortBy newestCmp l).head? = some x →
    x ∈ l ∧ ∀ y ∈ l, createdAtKeyD y ≤ createdAtKeyD x := by
  intro l
  induction l with
  | nil =>
    intro _ x hx
    simp [sortBy] at hx
  | cons r rs ih =>
    intro hk x hx
    have hkr : (createdAtKey r).isSome := hk r (by simp)
    have hkrs : ∀ y ∈ rs, (createdAtKey y).isSome := fun y hy => hk y (by simp [hy])
    simp only [sortBy] at hx
    cases hs : sortBy newestCmp rs with
    | nil =>
      rw [hs] at hx
      simp only [insertBy, List.head?] at hx
      cases hx
      have hrs : rs = [] := by
        by_contra hne
        exact sortBy_ne_nil newestCmp rs hne hs
      subst hrs
      constructor
      · simp
      · intro y hy
        simp at hy
        subst hy
        exact le_refl _
    | cons h t =>
      rw [hs] at hx
      have hhm : h ∈ rs := by
        have : h ∈ sortBy newestCmp rs := by rw [hs]; simp
        exact (mem_sortBy newestCmp h rs).mp this
      have hhead : (sortBy newestCmp rs).head? = some h := by rw [hs]; rfl
      obtain ⟨hmem, hmax⟩ := ih hkrs h hhead
      obtain ⟨ka, hka⟩ := Option.isSome_iff_exists.mp hkr
      obtain ⟨kh, hkh⟩ := Option.isSome_iff_exists.mp (hkrs h hhm)
      have hcmp : newestCmp r h = kh - ka := by
        simp [newestCmp, hka, hkh]
      simp only [insertBy] at hx
      by_cases hc : newestCmp r h ≤ 0
      · rw [if_pos hc] at hx
        simp only [List.head?] at hx
        cases hx
        have hkhka : kh ≤ ka := by
          rw [hcmp] at hc
          omega
        refine ⟨by simp, ?_⟩
        intro y hy
        simp only [List.mem_cons] at hy
        cases hy with
        | inl h1 => subst h1; exact le_refl _
        | inr h2 =>
          have := hmax y h2
          have hda : createdAtKeyD r = ka := by simp [createdAtKeyD, hka]
          have hdh : createdAtKeyD h = kh := by simp [createdAtKeyD, hkh]
          rw [hda]
          rw [hdh] at this
          omega
      · rw [if_neg hc] at hx
        simp only [List.head?] at hx
        cases hx
        refine ⟨by simp [hmem], ?_⟩
        intro y hy
        simp only [List.mem_cons] at hy
        cases hy with
        | inl h1 =>
          subst h1
          have hda : createdAtKeyD y = ka := by simp [createdAtKeyD, hka]
          have hdh : createdAtKeyD x = kh := by simp [createdAtKeyD, hkh]
          rw [hcmp] at hc
          rw [hda, hdh]
          omega
        | inr h2 => exact hmax y h2

theorem pickMostRecent_isSome (l : List DbRecord) (h : l ≠ []) :
    ∃ r, pickMostRecent l = some r := by
  unfold pickMostRecent
  cases hs : sortBy newestCmp l with
  | nil => exact absurd hs (sortBy_ne_nil newestCmp l h)
  | cons x xs => exact ⟨x, rfl⟩

theorem pickMostRecent_max (l : List DbRecord)
    (hk : ∀ r ∈ l, (createdAtKey r).isSome) (x : DbRecord)
    (hx : pickMostRecent l = some x) :
    x ∈ l ∧ ∀ y ∈ l, createdAtKeyD y ≤ createdAtKeyD x :=
  head_sortBy_newest l hk x hx

/-! ## Submission form state -/

/-- Variant of a toast notification. -/
inductive ToastVariant where
  | default
  | destructive
deriving DecidableEq, Repr

/-- A toast notification, identified by its title and variant. -/
structure Toast where
  title : String
  variant : ToastVariant
deriving DecidableEq, Repr

/-- The local script status enumeration. -/
inductive ScriptStatus where
  | Pending
  | Approved
deriving DecidableEq, Repr

/-- The focused subset of script-related fields held by the form. -/
structure ScriptLinks where
  episode_interview_script_1 : Option String
  episode_interview_script_2 : Option String
  episode_interview_script_3 : Option String
  episode_interview_script_4 : Option String
  episode_interview_full_script : Option String
  episode_interview_file : Option String
deriving DecidableEq, Repr

/-- All script links null, the reset value. -/
def emptyLinks : ScriptLinks :=
  ⟨none, none, none, none, none, none⟩

/-- The observable state of the submission form component: React state,
mutable refs, timer handles (modelled as pending flags), the file input,
and the toasts shown so far. -/
structure FormState where
  isSubmitting : Bool
  selectedFilePresent : Bool
  isScriptGenerated : Bool
  scriptStatus : ScriptStatus
  textFilesStatus : Option String
  podcastStatus : Option String
  processingStatus : Option String
  isApprovalDialogOpen : Bool
  scriptLinks : ScriptLinks
  lastError : Option String
  detailedError : Option String
  currentEpisodeName : Option String
  currentEpisodeId : Option String
  intervalActive : Bool
  timeoutActive : Bool
  foundMatchingRecord : Bool
  isCheckingExistingRecords : Bool
  shouldClearPdfFile : Bool
  toasts : List Toast
deriving DecidableEq, Repr

/-- The maximum time to wait for a response, in milliseconds. -/
def MAX_WAIT_TIME : Nat := 2 * 60 * 1000

/-- The progress message shown while only the first script exists. -/
def script1WaitMessage : String :=
  "Script #1 has been generated, kindly wait for the other scripts to load"

/-- The script-link subset of a record, each field read through the
(x || null) coercion of the source. -/
def linksFromRecord (r : DbRecord) : ScriptLinks where
  episode_interview_script_1 := orNull r.episode_interview_script_1
  episode_interview_script_2 := orNull r.episode_interview_script_2
  episode_interview_script_3 := orNull r.episode_interview_script_3
  episode_interview_script_4 := orNull r.episode_interview_script_4
  episode_interview_full_script := orNull r.episode_interview_full_script
  episode_interview_file := orNull r.episode_interview_file

/-- From the source: truthiness of (s1 or s2 or s3 or s4), the value given
to setIsScriptGenerated by every record-processing path. -/
def hasAnyScriptB (r : DbRecord) : Bool :=
  truthy r.episode_interview_script_1 || truthy r.episode_interview_script_2 ||
  truthy r.episode_interview_script_3 || truthy r.episode_interview_script_4

/-- From the source: the script status is copied into local state only
when the incoming value is truthy, becoming Approved exactly when the
incoming value is the string Approved. -/
def applyScriptStatus (r : DbRecord) (st : FormState) : FormState :=
  if truthy r.episode_interview_script_status then
    { st with scriptStatus :=
        if r.episode_interview_script_status = some "Approved" then
          ScriptStatus.Approved
        else ScriptStatus.Pending }
  else st

/-- From the source: the text-files status is copied only when truthy. -/
def applyTextFilesStatus (r : DbRecord) (st : FormState) : FormState :=
  if truthy r.episode_text_files_status then
    { st with textFilesStatus := r.episode_text_files_status }
  else st

/-- From the source: the podcast status is copied only when truthy. -/
def applyPodcastStatus (r : DbRecord) (st : FormState) : FormState :=
  if truthy r.podcast_status then
    { st with podcastStatus := r.podcast_status }
  else st

/-- From the source (identical block in every record-processing path):
each of the three status fields is copied into local state only when the
incoming value is truthy. -/
def applyStatusFields (r : DbRecord) (st : FormState) : FormState :=
  applyPodcastStatus r (applyTextFilesStatus r (applyScriptStatus r st))

@[simp] theorem applyScriptStatus_eq (r : DbRecord) (st : FormState) :
    applyScriptStatus r st =
    { st with scriptStatus :=
        if truthy r.episode_interview_script_status then
          (if r.episode_interview_script_status = some "Approved" then
            ScriptStatus.Approved
          else ScriptStatus.Pending)
        else st.scriptStatus } := by
  unfold applyScriptStatus
  split <;> simp_all

@[simp] theorem applyTextFilesStatus_eq (r : DbRecord) (st : FormState) :
    applyTextFilesStatus r st =
    { st with textFilesStatus :=
        if truthy r.episode_text_files_status then r.episode_text_files_status
        else st.textFilesStatus } := by
  unfold applyTextFilesStatus
  split <;> simp_all

@[simp] theorem applyPodcastStatus_eq (r : DbRecord) (st : FormState) :
    applyPodcastStatus r st =
    { st with podcastStatus :=
        if truthy r.podcast_status then r.podcast_status
        else st.podcastStatus } := by
  unfold applyPodcastStatus
  split <;> simp_all

/-- From the source (checkForNewRow): guarded by the episode name being
set, a submission being in flight, the found-record latch being unset and
no concurrent check running; queries the store for records with the
current episode name, takes the newest, marks the latch, stores the record
id, rewrites the script links, and either reports partial progress
(script 1 without script 4) or, when script 4 is truthy, ends the loading
state, flags the file input for clearing, cancels the polling interval and
the ceiling timer, and shows a success toast. -/
def checkForNewRow (store : List DbRecord) (st : FormState) : FormState :=
  match st.currentEpisodeName with
  | none => st
  | some name =>
    if name.data.isEmpty then st
    else if !st.isSubmitting || st.foundMatchingRecord ||
        st.isCheckingExistingRecords then st
    else
      match pickMostRecent (store.filter
          (fun r => r.episode_interview_file_name = some name)) with
      | none => st
      | some r =>
        let st1 := applyStatusFields r
          { st with foundMatchingRecord := true,
                    currentEpisodeId := some r.id,
                    scriptLinks := linksFromRecord r,
                    isScriptGenerated := hasAnyScriptB r }
        if truthy r.episode_interview_script_1 &&
            !truthy r.episode_interview_script_4 then
          { st1 with processingStatus := some script1WaitMessage }
        else if truthy r.episode_interview_script_4 then
          { st1 with isSubmitting := false,
                     shouldClearPdfFile := true,
                     intervalActive := false,
                     timeoutActive := false,
                     toasts := st1.toasts ++ [⟨"Success!", ToastVariant.default⟩] }
        else st1

/-- From the source (INSERT subscription handler): guarded by a submission
being in flight, a truthy episode name and the latch being unset; on a
record whose name matches, marks the latch, rewrites links and statuses
(without storing the record id), and resolves when script 4 is truthy. -/
def insertEvent (rec : DbRecord) (st : FormState) : FormState :=
  if st.isSubmitting && truthy st.currentEpisodeName &&
      !st.foundMatchingRecord then
    if rec.episode_interview_file_name = st.currentEpisodeName then
      let st1 := applyStatusFields rec
        { st with foundMatchingRecord := true,
                  scriptLinks := linksFromRecord rec,
                  isScriptGenerated := hasAnyScriptB rec }
      if truthy rec.episode_interview_script_1 &&
          !truthy rec.episode_interview_script_4 then
        { st1 with processingStatus := some script1WaitMessage }
      else if truthy rec.episode_interview_script_4 then
        { st1 with isSubmitting := false,
                   shouldClearPdfFile := true,
                   intervalActive := false,
                   timeoutActive := false,
                   toasts := st1.toasts ++ [⟨"Success!", ToastVariant.default⟩] }
      else st1
    else st
  else st

/-- From the source (UPDATE subscription handler): guarded only by a
truthy episode name - not by the latch and not by a submission being in
flight; on a record whose name matches, sets the latch and rewrites links
and statuses unconditionally, and ends the loading state only when script
4 is truthy and a submission is still in flight. -/
def updateEvent (rec : DbRecord) (st : FormState) : FormState :=
  if truthy st.currentEpisodeName then
    if rec.episode_interview_file_name = st.currentEpisodeName then
      let st1 := applyStatusFields rec
        { st with foundMatchingRecord := true,
                  scriptLinks := linksFromRecord rec,
                  isScriptGenerated := hasAnyScriptB rec }
      if truthy rec.episode_interview_script_1 &&
          !truthy rec.episode_interview_script_4 then
        { st1 with processingStatus := some script1WaitMessage }
      else if truthy rec.episode_interview_script_4 && st.isSubmitting then
        { st1 with isSubmitting := false,
                   shouldClearPdfFile := true,
                   intervalActive := false,
                   timeoutActive := false,
                   toasts := st1.toasts ++ [⟨"Success!", ToastVariant.default⟩] }
      else st1
    else st
  else st

/-- From the source (processWebhookResponse): examines the first element
of an array response; when its name field strictly equals the current
episode name, marks the latch, rewrites links and statuses, ends the
loading state when script 4 is truthy, and reports that the response was
processed. -/
def processWebhookResponse (payload : List DbRecord) (st : FormState) :
    FormState × Bool :=
  match payload with
  | [] => (st, false)
  | item :: _ =>
    match item.episode_interview_file_name, st.currentEpisodeName with
    | some a, some b =>
      if a = b then
        let st1 := applyStatusFields item
          { st with foundMatchingRecord := true,
                    scriptLinks := linksFromRecord item,
                    isScriptGenerated := hasAnyScriptB item }
        if truthy item.episode_interview_script_1 &&
            !truthy item.episode_interview_script_4 then
          ({ st1 with processingStatus := some script1WaitMessage }, true)
        else if truthy item.episode_interview_script_4 then
          ({ st1 with isSubmitting := false, shouldClearPdfFile := true }, true)
        else (st1, true)
      else (st, false)
    | _, _ => (st, false)

/-- Outcome of the webhook POST: a non-2xx response with its status and
body text, a 2xx response whose body parsed as a JSON array, a 2xx
response whose body failed to parse, or a thrown network error. -/
inductive WebhookOutcome where
  | httpError (status : Nat) (errText : String)
  | okParsed (payload : List DbRecord)
  | okParseFailure (msg : String)
  | netError (msg : String)
deriving DecidableEq, Repr

/-- Whether the webhook outcome is one of the failure shapes. -/
def WebhookOutcome.isFailure : WebhookOutcome → Bool
  | .httpError _ _ => true
  | .okParseFailure _ => true
  | .netError _ => true
  | .okParsed _ => false

/-- From the source (onSubmit, webhook section): a non-2xx status stores
the error text in the debug state; a parsed 2xx response is run through
processWebhookResponse and, when processed, the polling interval and the
ceiling timer are cancelled; a parse failure or a thrown error stores the
message in the debug state.  Every path ends with an immediate
checkForNewRow against the store. -/
def webhookPhase (store : List DbRecord) (outcome : WebhookOutcome)
    (st : FormState) : FormState :=
  match outcome with
  | .httpError status errText =>
    checkForNewRow store
      { st with
        lastError := some ("Error: Server responded with status " ++ toString status),
        detailedError := some errText }
  | .okParsed payload =>
    let res := processWebhookResponse payload st
    let st2 := if res.2 then
        { res.1 with intervalActive := false, timeoutActive := false }
      else res.1
    checkForNewRow store st2
  | .okParseFailure msg =>
    checkForNewRow store
      { st with
        lastError := some "Error parsing response",
        detailedError := some msg }
  | .netError msg =>
    checkForNewRow store
      { st with
        lastError := some ("Error: " ++ msg),
        detailedError := some msg }

/-- From the source (onSubmit): records the episode name, resets the
latch, enters the loading state, shows the processing toast, resets the
script links and statuses, and starts the polling interval and the
ceiling timer.  Then the store is queried for records that already carry
the episode name: when any exist the newest is adopted exactly as in
checkForNewRow (plus ending the loading state and a found toast) and the
function returns without calling the webhook; otherwise the webhook is
sent and its outcome handled by webhookPhase.  The returned flag reports
whether the webhook call was issued. -/
def onSubmit (store : List DbRecord) (outcome : WebhookOutcome)
    (episodeName : String) (st0 : FormState) : FormState × Bool :=
  let st := { st0 with
    currentEpisodeName := some episodeName,
    foundMatchingRecord := false,
    isSubmitting := true,
    processingStatus := none,
    toasts := st0.toasts ++ [⟨"Processing Started", ToastVariant.default⟩],
    scriptLinks := emptyLinks,
    isScriptGenerated := false,
    textFilesStatus := none,
    podcastStatus := none,
    intervalActive := true,
    timeoutActive := true }
  match pickMostRecent (store.filter
      (fun r => r.episode_interview_file_name = some episodeName)) with
  | some r =>
    let st1 := applyStatusFields r
      { st with foundMatchingRecord := true,
                currentEpisodeId := some r.id,
                scriptLinks := linksFromRecord r,
                isSubmitting := false,
                shouldClearPdfFile := true,
                intervalActive := false,
                timeoutActive := false,
                isScriptGenerated := hasAnyScriptB r }
    ({ st1 with toasts := st1.toasts ++ [⟨"Scripts Found!", ToastVariant.default⟩] },
     false)
  | none => (webhookPhase store outcome st, true)

/-- From the source (the MAX_WAIT_TIME setTimeout callback): when it fires
while a submission is still in flight, it ends the loading state, flags
the file input for clearing, cancels the polling interval and shows the
timeout toast.  Firing consumes the pending timer in either case. -/
def timeoutFires (st : FormState) : FormState :=
  let stt := { st with timeoutActive := false }
  if stt.isSubmitting then
    { stt with isSubmitting := false,
               shouldClearPdfFile := true,
               intervalActive := false,
               toasts := stt.toasts ++ [⟨"Processing Timeout", ToastVariant.destructive⟩] }
  else stt

/-- From the source (the effect on isSubmitting): once no submission is in
flight, the polling interval and ceiling timer are cleared, the latch and
the concurrent-check flag are reset, and, when flagged, the file input is
cleared. -/
def submissionEndEffect (st : FormState) : FormState :=
  if st.isSubmitting then st
  else
    { st with intervalActive := false,
              timeoutActive := false,
              foundMatchingRecord := false,
              isCheckingExistingRecords := false,
              selectedFilePresent :=
                if st.shouldClearPdfFile then false else st.selectedFilePresent,
              shouldClearPdfFile := false }

/-- Outcome of the approval write to the store: the update succeeded, the
store returned an error object, or the call threw. -/
inductive WriteOutcome where
  | ok
  | dbError
  | thrownError
deriving DecidableEq, Repr

/-- From the source (confirmApproval): the local script status is set to
Approved and the dialog closed first; only when a record id is known is
the store write attempted - on a store error an Update Error toast is
shown (local state untouched), on success the local text-files and
podcast statuses become Pending, on a thrown error nothing further
happens.  A Scripts Approved toast is always shown last. -/
def confirmApproval (outcome : WriteOutcome) (st : FormState) : FormState :=
  let st1 := { st with scriptStatus := ScriptStatus.Approved,
                       isApprovalDialogOpen := false }
  let st2 :=
    if truthy st1.currentEpisodeId then
      match outcome with
      | .dbError =>
        { st1 with toasts := st1.toasts ++ [⟨"Update Error", ToastVariant.destructive⟩] }
      | .ok =>
        { st1 with textFilesStatus := some "Pending",
                   podcastStatus := some "Pending" }
      | .thrownError => st1
    else st1
  { st2 with toasts := st2.toasts ++ [⟨"Scripts Approved", ToastVariant.default⟩] }

/-- From the source (the Generate Audio button): disabled when the script
status is already Approved, or no script has been generated, or script 4
is not a valid link. -/
def generateAudioDisabled (st : FormState) : Bool :=
  st.scriptStatus = ScriptStatus.Approved || !st.isScriptGenerated ||
  !(isValidScriptLink st.scriptLinks.episode_interview_script_4)

/-- The number of destructive (blocking-error style) toasts shown. -/
def destructiveCount (l : List Toast) : Nat :=
  (l.filter (fun t => t.variant = ToastVariant.destructive)).length

/-! ## Claim theorems -/

/-- A baseline idle form state used to instantiate witnesses. -/
def idleState : FormState where
  isSubmitting := false
  selectedFilePresent := false
  isScriptGenerated := false
  scriptStatus := ScriptStatus.Pending
  textFilesStatus := none
  podcastStatus := none
  processingStatus := none
  isApprovalDialogOpen := false
  scriptLinks := emptyLinks
  lastError := none
  detailedError := none
  currentEpisodeName := none
  currentEpisodeId := none
  intervalActive := false
  timeoutActive := false
  foundMatchingRecord := false
  isCheckingExistingRecords := false
  shouldClearPdfFile := false
  toasts := []

/-- Claim C2: for every session still in flight, the ceiling timer firing
(followed by the effect that reacts to the loading state ending) clears
the loading state, cancels the polling interval, clears the uploaded-file
input, and shows the distinct timeout toast; the ceiling is the fixed two
minutes. -/
theorem claim_c2 (st : FormState) (h : st.isSubmitting = true) :
    (submissionEndEffect (timeoutFires st)).isSubmitting = false ∧
    (submissionEndEffect (timeoutFires st)).intervalActive = false ∧
    (submissionEndEffect (timeoutFires st)).selectedFilePresent = false ∧
    Toast.mk "Processing Timeout" ToastVariant.destructive ∈
      (submissionEndEffect (timeoutFires st)).toasts ∧
    MAX_WAIT_TIME = 120000 := by
  simp [timeoutFires, submissionEndEffect, h, MAX_WAIT_TIME]

/-- A concrete in-flight session with a file selected, for the C2
witness. -/
def pollingState : FormState :=
  { idleState with
    isSubmitting := true,
    selectedFilePresent := true,
    currentEpisodeName := some "ep",
    intervalActive := true,
    timeoutActive := true }

/-- Witness for claim C2 at a concrete in-flight session with a file
selected. -/
theorem claim_c2_witness :
    pollingState.isSubmitting = true ∧
    (submissionEndEffect (timeoutFires pollingState)).isSubmitting = false ∧
    (submissionEndEffect (timeoutFires pollingState)).selectedFilePresent = false :=
  ⟨rfl, (claim_c2 pollingState rfl).1, (claim_c2 pollingState rfl).2.2.1⟩

/-- Claim C4: the Generate Audio button is enabled exactly when the script
status is not already Approved, some script exists, and script 4 is a
valid link; in particular it is disabled whenever script 4 is absent. -/
theorem claim_c4 (st : FormState) :
    (generateAudioDisabled st = false ↔
      (st.scriptStatus ≠ ScriptStatus.Approved ∧ st.isScriptGenerated = true ∧
        isValidScriptLink st.scriptLinks.episode_interview_script_4 = true)) ∧
    (st.scriptLinks.episode_interview_script_4 = none →
      generateAudioDisabled st = true) := by
  constructor
  · simp [generateAudioDisabled, and_assoc]
  · intro h
    simp [generateAudioDisabled, h, isValidScriptLink]

/-- A concrete state with scripts 1 to 3 present and script 4 absent, for
the C4 witness. -/
def threeScriptsState : FormState :=
  { idleState with
    isScriptGenerated := true,
    scriptLinks := ⟨some "a", some "b", some "c", none, none, none⟩ }

/-- Witness for claim C4: scripts 1 to 3 present, script 4 absent, status
Pending - the button is disabled. -/
theorem claim_c4_witness : generateAudioDisabled threeScriptsState = true :=
  (claim_c4 threeScriptsState).2 rfl

/-- Claim C5: every confirmed approval sets the local script status to
Approved unconditionally; the local text-files and podcast statuses become
Pending exactly when a record id is known and the store write succeeded;
on a store error an Update Error toast is shown and the local Approved
status is not rolled back. -/
theorem claim_c5 (o : WriteOutcome) (st : FormState) :
    (confirmApproval o st).scriptStatus = ScriptStatus.Approved ∧
    (confirmApproval o st).textFilesStatus =
      (if truthy st.currentEpisodeId = true ∧ o = WriteOutcome.ok then
        some "Pending" else st.textFilesStatus) ∧
    (confirmApproval o st).podcastStatus =
      (if truthy st.currentEpisodeId = true ∧ o = WriteOutcome.ok then
        some "Pending" else st.podcastStatus) ∧
    (truthy st.currentEpisodeId = true → o = WriteOutcome.dbError →
      Toast.mk "Update Error" ToastVariant.destructive ∈
        (confirmApproval o st).toasts) := by
  cases o <;>
    by_cases h : truthy st.currentEpisodeId = true <;>
    simp [confirmApproval, h]

/-- Witness for claim C5 at a concrete state with a known record id and a
failing store write: status flips to Approved, statuses stay untouched,
and the Update Error toast is shown. -/
theorem claim_c5_witness :
    (confirmApproval WriteOutcome.dbError
      { idleState with currentEpisodeId := some "rec-1" }).scriptStatus
      = ScriptStatus.Approved ∧
    Toast.mk "Update Error" ToastVariant.destructive ∈
      (confirmApproval WriteOutcome.dbError
        { idleState with currentEpisodeId := some "rec-1" }).toasts :=
  ⟨(claim_c5 WriteOutcome.dbError
      { idleState with currentEpisodeId := some "rec-1" }).1,
   (claim_c5 WriteOutcome.dbError
      { idleState with currentEpisodeId := some "rec-1" }).2.2.2 rfl rfl⟩

/-- A resolved session: the latch is set and the links of a first record
(script 1 is link-a) are in place. -/
def latchedState : FormState :=
  { idleState with
    foundMatchingRecord := true,
    currentEpisodeName := some "ep",
    scriptLinks := ⟨some "link-a", none, none, none, none, none⟩ }

/-- A later UPDATE-event record for the same episode name carrying a
different script 1 link. -/
def laterUpdateRecord : DbRecord where
  id := "r2"
  created_at := none
  episode_interview_file_name := some "ep"
  episode_interview_script_1 := some "link-b"
  episode_interview_script_2 := none
  episode_interview_script_3 := none
  episode_interview_script_4 := none
  episode_interview_full_script := none
  episode_interview_file := none
  episode_interview_script_status := none
  episode_text_files_status := none
  podcast_status := none

/-- Counterexample to claim C1: with the latch already set, an UPDATE
event for the same episode name is not a no-op - it overwrites the
session script links. -/
theorem claim_c1_counterexample :
    latchedState.foundMatchingRecord = true ∧
    (updateEvent laterUpdateRecord latchedState).scriptLinks ≠
      latchedState.scriptLinks := by
  decide

/-- Claim C1 as amended: once the latch is set, a poll result and an
INSERT event are no-ops; but an UPDATE event whose record name matches
the (truthy) current episode name is processed regardless of the latch,
overwriting the script links and re-setting the latch. -/
theorem claim_c1_amended (store : List DbRecord) (rec : DbRecord)
    (st : FormState) (h : st.foundMatchingRecord = true) :
    checkForNewRow store st = st ∧
    insertEvent rec st = st ∧
    (∀ n : String, st.currentEpisodeName = some n → n.data.isEmpty = false →
      rec.episode_interview_file_name = some n →
      (updateEvent rec st).scriptLinks = linksFromRecord rec ∧
      (updateEvent rec st).foundMatchingRecord = true) := by
  refine ⟨?_, ?_, ?_⟩
  · cases hn : st.currentEpisodeName with
    | none => simp [checkForNewRow, hn]
    | some name => simp [checkForNewRow, hn, h]
  · simp [insertEvent, h]
  · intro n hn hne hr
    have ht : truthy st.currentEpisodeName = true := by simp [truthy, hn, hne]
    have hm : rec.episode_interview_file_name = st.currentEpisodeName := by
      rw [hr, hn]
    unfold updateEvent
    rw [ht, if_pos rfl, if_pos hm]
    split <;> (try split) <;>
      simp [applyStatusFields]

/-- Witness for the amended claim C1: the no-op facts at the concrete
latched state with the concrete record, and the update overwrite at the
same inputs. -/
theorem claim_c1_witness :
    checkForNewRow [laterUpdateRecord] latchedState = latchedState ∧
    insertEvent laterUpdateRecord latchedState = latchedState ∧
    (updateEvent laterUpdateRecord latchedState).scriptLinks =
      linksFromRecord laterUpdateRecord :=
  ⟨(claim_c1_amended [laterUpdateRecord] laterUpdateRecord latchedState rfl).1,
   (claim_c1_amended [laterUpdateRecord] laterUpdateRecord latchedState rfl).2.1,
   ((claim_c1_amended [laterUpdateRecord] laterUpdateRecord latchedState rfl).2.2
      "ep" rfl rfl rfl).1⟩

/-- Two single-column rows whose fetch order is not the ascending order of
column x. -/
def c8Rows : List Row :=
  [[("x", JsValue.str "2")], [("x", JsValue.str "1")]]

/-- Counterexample to claim C8: starting from a state in which column x is
already the active ascending sort, three clicks on x land back on the
ascending sort, so the displayed order is not the original fetch order
(while the no-sort state does display the fetch order). -/
theorem claim_c8_counterexample :
    sortedRecords c8Rows
      (handleSort "x" (handleSort "x" (handleSort "x"
        ⟨some "x", some SortDir.asc⟩))) ≠ c8Rows ∧
    sortedRecords c8Rows ⟨none, none⟩ = c8Rows := by
  decide

/-- Claim C8 as amended: clicking one column cycles null to ascending to
descending back to null and clicking a different column starts ascending,
exactly as claimed; but three clicks on one column restore the original
fetch order only when that column was not already the active sort column
(in particular from the no-sort state or from a sort on another column). -/
theorem claim_c8_amended (records : List Row) (col : String) (s : SortState)
    (h : s.column ≠ some col) :
    handleSort col s = ⟨some col, some SortDir.asc⟩ ∧
    handleSort col ⟨some col, none⟩ = ⟨some col, some SortDir.asc⟩ ∧
    handleSort col ⟨some col, some SortDir.asc⟩ = ⟨some col, some SortDir.desc⟩ ∧
    handleSort col ⟨some col, some SortDir.desc⟩ = ⟨none, none⟩ ∧
    sortedRecords records
      (handleSort col (handleSort col (handleSort col s))) = records := by
  have h1 : handleSort col s = ⟨some col, some SortDir.asc⟩ := by
    unfold handleSort
    rw [if_neg h]
  refine ⟨h1, by simp [handleSort], by simp [handleSort], by simp [handleSort], ?_⟩
  rw [h1]
  simp [handleSort, sortedRecords]

/-- Witness for the amended claim C8: from the no-sort state, three clicks
on column x display the fetch order again. -/
theorem claim_c8_witness :
    sortedRecords c8Rows
      (handleSort "x" (handleSort "x" (handleSort "x" ⟨none, none⟩))) = c8Rows :=
  (claim_c8_amended c8Rows "x" ⟨none, none⟩ (by decide)).2.2.2.2

/-- The two example rows of the specification: a null, a date and a cased
string against a number, an earlier date and a lower-case string. -/
def specRowA : Row :=
  [("a", JsValue.null), ("b", JsValue.str "2024-01-01"), ("c", JsValue.str "Zebra")]

/-- Second example row of the specification. -/
def specRowB : Row :=
  [("a", JsValue.num 1), ("b", JsValue.str "2023-01-01"), ("c", JsValue.str "apple")]

/-- Claim C7: the comparator applies exactly the claimed precedence -
null/undefined first ascending and last descending against non-null
values, else numeric when both convert to numbers, else chronological
when both are valid dates, else case-insensitive string order; ascending
sort by the date column puts the earlier date first and ascending sort by
the text column puts apple before Zebra. -/
theorem claim_c7 :
    (∀ b : JsValue, compareValues JsValue.null b true = -1 ∧
      compareValues JsValue.null b false = 1) ∧
    (∀ a : JsValue, a ≠ JsValue.null →
      compareValues a JsValue.null true = 1 ∧
      compareValues a JsValue.null false = -1) ∧
    (∀ a b : JsValue, a ≠ JsValue.null → b ≠ JsValue.null →
      ∀ x y : Int, jsNumberOf a = some x → jsNumberOf b = some y →
      compareValues a b true = x - y ∧ compareValues a b false = y - x) ∧
    (∀ a b : JsValue, a ≠ JsValue.null → b ≠ JsValue.null →
      (jsNumberOf a = none ∨ jsNumberOf b = none) →
      ∀ x y : Int, jsDateOf a = some x → jsDateOf b = some y →
      compareValues a b true = x - y ∧ compareValues a b false = y - x) ∧
    (∀ a b : JsValue, a ≠ JsValue.null → b ≠ JsValue.null →
      (jsNumberOf a = none ∨ jsNumberOf b = none) →
      (jsDateOf a = none ∨ jsDateOf b = none) →
      compareValues a b true =
        cmpStr (lowerStr (jsStringOf a)) (lowerStr (jsStringOf b)) ∧
      compareValues a b false =
        cmpStr (lowerStr (jsStringOf b)) (lowerStr (jsStringOf a))) ∧
    sortedRecords [specRowA, specRowB] ⟨some "b", some SortDir.asc⟩ =
      [specRowB, specRowA] ∧
    sortedRecords [specRowA, specRowB] ⟨some "c", some SortDir.asc⟩ =
      [specRowB, specRowA] := by
  refine ⟨?_, ?_, ?_, ?_, ?_, by decide, by decide⟩
  · intro b
    simp [compareValues]
  · intro a ha
    simp [compareValues, ha]
  · intro a b ha hb x y hx hy
    simp [compareValues, ha, hb, hx, hy]
  · intro a b ha hb hnum x y hx hy
    rcases hnum with hn | hn
    · cases hnb : jsNumberOf b <;>
        simp [compareValues, ha, hb, hn, hnb, hx, hy]
    · cases hna : jsNumberOf a <;>
        simp [compareValues, ha, hb, hn, hna, hx, hy]
  · intro a b ha hb hnum hdate
    rcases hnum with hn | hn <;> rcases hdate with hd | hd <;>
      cases hna : jsNumberOf a <;> cases hnb : jsNumberOf b <;>
      cases hda : jsDateOf a <;> cases hdb : jsDateOf b <;>
      simp_all [compareValues]

/-- Witness for claim C7: the numeric branch applied to the string ten
against the number two. -/
theorem claim_c7_witness :
    compareValues (JsValue.str "10") (JsValue.num 2) true = 10 - 2 :=
  (claim_c7.2.2.1 (JsValue.str "10") (JsValue.num 2) (by decide) (by decide)
    10 2 (by decide) (by decide)).1

/-- Claim C3: when the store already has a record with the submitted
episode name, the submission resolves immediately from the newest such
record - the webhook is never issued, the latch is set, the loading state
is cleared, and the script links and record id come from that record. -/
theorem claim_c3 (store : List DbRecord) (outcome : WebhookOutcome)
    (name : String) (st : FormState)
    (h : store.filter (fun r => r.episode_interview_file_name = some name) ≠ []) :
    (onSubmit store outcome name st).2 = false ∧
    (onSubmit store outcome name st).1.foundMatchingRecord = true ∧
    (onSubmit store outcome name st).1.isSubmitting = false ∧
    ∃ r, pickMostRecent (store.filter
        (fun r => r.episode_interview_file_name = some name)) = some r ∧
      (onSubmit store outcome name st).1.scriptLinks = linksFromRecord r ∧
      (onSubmit store outcome name st).1.currentEpisodeId = some r.id := by
  obtain ⟨r, hr⟩ := pickMostRecent_isSome _ h
  unfold onSubmit
  rw [hr]
  simp only [applyStatusFields, applyPodcastStatus_eq, applyTextFilesStatus_eq,
    applyScriptStatus_eq]
  exact ⟨trivial, trivial, trivial, r, rfl, rfl, rfl⟩

/-- An already-complete record for the C3 witness. -/
def existingRecord : DbRecord where
  id := "r-existing"
  created_at := some "2024-05-05"
  episode_interview_file_name := some "my episode"
  episode_interview_script_1 := some "s1"
  episode_interview_script_2 := some "s2"
  episode_interview_script_3 := some "s3"
  episode_interview_script_4 := some "s4"
  episode_interview_full_script := some "full"
  episode_interview_file := some "file"
  episode_interview_script_status := none
  episode_text_files_status := none
  podcast_status := none

/-- Witness for claim C3: submitting the name of the existing record never
calls the webhook and clears the loading state. -/
theorem claim_c3_witness :
    (onSubmit [existingRecord] (WebhookOutcome.netError "unreachable")
      "my episode" idleState).2 = false ∧
    (onSubmit [existingRecord] (WebhookOutcome.netError "unreachable")
      "my episode" idleState).1.isSubmitting = false :=
  ⟨(claim_c3 [existingRecord] (WebhookOutcome.netError "unreachable")
      "my episode" idleState (by decide)).1,
   (claim_c3 [existingRecord] (WebhookOutcome.netError "unreachable")
      "my episode" idleState (by decide)).2.2.1⟩

/-- A record whose created_at is a non-empty string that does not parse as
a date. -/
def unparsableDateRecord : DbRecord where
  id := "A"
  created_at := some "garbage"
  episode_interview_file_name := some "ep"
  episode_interview_script_1 := none
  episode_interview_script_2 := none
  episode_interview_script_3 := none
  episode_interview_script_4 := none
  episode_interview_full_script := none
  episode_interview_file := none
  episode_interview_script_status := none
  episode_text_files_status := none
  podcast_status := none

/-- A record with a parsable created_at date. -/
def parsableDateRecord : DbRecord where
  id := "B"
  created_at := some "2020-01-02"
  episode_interview_file_name := some "ep"
  episode_interview_script_1 := none
  episode_interview_script_2 := none
  episode_interview_script_3 := none
  episode_interview_script_4 := none
  episode_interview_full_script := none
  episode_interview_file := none
  episode_interview_script_status := none
  episode_text_files_status := none
  podcast_status := none

/-- Counterexample to claim C9: the code picks record A, whose created_at
is unparsable, over record B, whose timestamp is strictly greater than the
0 the claim assigns to A - because an unparsable created_at yields a NaN
time value that makes the comparison a tie, preserving fetch order, rather
than sorting as timestamp 0. -/
theorem claim_c9_counterexample :
    pickMostRecent [unparsableDateRecord, parsableDateRecord] =
      some unparsableDateRecord ∧
    specCreatedAtKey unparsableDateRecord <
      specCreatedAtKey parsableDateRecord ∧
    createdAtKey unparsableDateRecord = none := by
  refine ⟨by decide, by decide, by decide⟩

/-- Claim C9 as amended: when every matching record has a created_at that
is missing, empty, or parses as a date, both the poll path and the
pre-webhook check in onSubmit resolve to a record with the greatest
timestamp (missing or empty counting as 0), and the record id and script
links come from that record; a non-empty unparsable created_at instead
compares as a tie and keeps fetch order. -/
theorem claim_c9_amended (store : List DbRecord) (outcome : WebhookOutcome)
    (name : String) (st : FormState)
    (hn : st.currentEpisodeName = some name) (hne : name.data.isEmpty = false)
    (hsub : st.isSubmitting = true) (hlatch : st.foundMatchingRecord = false)
    (hchk : st.isCheckingExistingRecords = false)
    (hmatch : store.filter (fun r => r.episode_interview_file_name = some name) ≠ [])
    (hkeys : ∀ r ∈ store.filter (fun r => r.episode_interview_file_name = some name),
      (createdAtKey r).isSome) :
    ∃ r, r ∈ store.filter (fun r => r.episode_interview_file_name = some name) ∧
      (∀ y ∈ store.filter (fun r => r.episode_interview_file_name = some name),
        createdAtKeyD y ≤ createdAtKeyD r) ∧
      (checkForNewRow store st).currentEpisodeId = some r.id ∧
      (checkForNewRow store st).scriptLinks = linksFromRecord r ∧
      (onSubmit store outcome name st).1.currentEpisodeId = some r.id ∧
      (onSubmit store outcome name st).1.scriptLinks = linksFromRecord r := by
  obtain ⟨r, hr⟩ := pickMostRecent_isSome _ hmatch
  obtain ⟨hmem, hmax⟩ := pickMostRecent_max _ hkeys r hr
  refine ⟨r, hmem, hmax, ?_, ?_, ?_, ?_⟩
  · unfold checkForNewRow
    rw [hn]
    dsimp only
    rw [if_neg (by simp [hne]), if_neg (by simp [hsub, hlatch, hchk]), hr]
    dsimp only
    split <;> (try split) <;> simp [applyStatusFields]
  · unfold checkForNewRow
    rw [hn]
    dsimp only
    rw [if_neg (by simp [hne]), if_neg (by simp [hsub, hlatch, hchk]), hr]
    dsimp only
    split <;> (try split) <;> simp [applyStatusFields]
  · unfold onSubmit
    rw [hr]
    simp [applyStatusFields]
  · unfold onSubmit
    rw [hr]
    simp [applyStatusFields]

/-- A strictly newer record with the same episode name as record B. -/
def newerDateRecord : DbRecord :=
  { parsableDateRecord with id := "C", created_at := some "2021-03-04" }

/-- A concrete polling session on the shared episode name, for the C9
witness. -/
def c9PollState : FormState :=
  { idleState with isSubmitting := true, currentEpisodeName := some "ep" }

/-- Witness for the amended claim C9: with two dated records for the same
name, the strictly newer record C supplies the record id on the poll
path. -/
theorem claim_c9_witness :
    (checkForNewRow [parsableDateRecord, newerDateRecord]
      c9PollState).currentEpisodeId = some "C" := by
  obtain ⟨r, hmem, hmax, hid, hlinks, _, _⟩ :=
    claim_c9_amended [parsableDateRecord, newerDateRecord]
      (WebhookOutcome.netError "unused") "ep" c9PollState
      rfl rfl rfl rfl rfl (by decide) (by decide)
  have hrC : r = newerDateRecord := by
    simp only [List.mem_filter, List.mem_cons, List.not_mem_nil] at hmem
    rcases hmem with ⟨hin, _⟩
    rcases hin with h | h | h
    · exfalso
      have hC := hmax newerDateRecord (by decide)
      rw [h] at hC
      have h2 : createdAtKeyD parsableDateRecord < createdAtKeyD newerDateRecord := by
        decide
      omega
    · exact h
    · exact h.elim
  rw [hid, hrC]
  rfl

/-- Claim C10: a record whose script 4 is a whitespace-only string is
treated as complete by every resolution path (the truthiness test), so
the session resolves - yet the Generate Audio gate, which trims, stays
disabled. -/
theorem claim_c10 (s n : String) (st : FormState) (r : DbRecord)
    (hs : s.data.isEmpty = false) (hts : (jsTrim s).data.isEmpty = true)
    (h4 : r.episode_interview_script_4 = some s)
    (hrn : r.episode_interview_file_name = some n)
    (hn : st.currentEpisodeName = some n) (hne : n.data.isEmpty = false)
    (hsub : st.isSubmitting = true) (hlatch : st.foundMatchingRecord = false)
    (hchk : st.isCheckingExistingRecords = false) :
    (checkForNewRow [r] st).isSubmitting = false ∧
    (checkForNewRow [r] st).foundMatchingRecord = true ∧
    generateAudioDisabled (checkForNewRow [r] st) = true ∧
    (insertEvent r st).isSubmitting = false ∧
    generateAudioDisabled (insertEvent r st) = true ∧
    (updateEvent r st).isSubmitting = false ∧
    generateAudioDisabled (updateEvent r st) = true ∧
    (processWebhookResponse [r] st).1.isSubmitting = false := by
  have ht4 : truthy r.episode_interview_script_4 = true := by
    rw [h4]
    simp [truthy, hs]
  have htn : truthy (some n) = true := by
    simp [truthy, hne]
  have hor4 : orNull r.episode_interview_script_4 = some s := by
    rw [h4]
    simp [orNull, truthy, hs]
  have hinv : isValidScriptLink (orNull r.episode_interview_script_4) = false := by
    rw [hor4]
    simp [isValidScriptLink, hts]
  have hinv2 : isValidScriptLink (some s) = false := by
    simp [isValidScriptLink, hts]
  refine ⟨?_, ?_, ?_, ?_, ?_, ?_, ?_, ?_⟩ <;>
    simp [checkForNewRow, insertEvent, updateEvent, processWebhookResponse,
      generateAudioDisabled, linksFromRecord, applyStatusFields,
      hn, hne, hsub, hlatch, hchk, hrn, ht4, htn, hor4, hinv, hinv2,
      pickMostRecent, sortBy, insertBy]

/-- A record whose script 4 is a single space, for the C10 witness. -/
def whitespaceScript4Record : DbRecord where
  id := "W"
  created_at := none
  episode_interview_file_name := some "ep"
  episode_interview_script_1 := none
  episode_interview_script_2 := none
  episode_interview_script_3 := none
  episode_interview_script_4 := some " "
  episode_interview_full_script := none
  episode_interview_file := none
  episode_interview_script_status := none
  episode_text_files_status := none
  podcast_status := none

/-- A polling session matching the whitespace record, for the C10
witness. -/
def c10PollState : FormState :=
  { idleState with isSubmitting := true, currentEpisodeName := some "ep" }

/-- Witness for claim C10 at script 4 equal to a single space: the poll
resolves the session but the Generate Audio button stays disabled. -/
theorem claim_c10_witness :
    (checkForNewRow [whitespaceScript4Record] c10PollState).isSubmitting = false ∧
    generateAudioDisabled (checkForNewRow [whitespaceScript4Record] c10PollState)
      = true :=
  ⟨(claim_c10 " " "ep" c10PollState whitespaceScript4Record
      rfl (by decide) rfl rfl rfl rfl rfl rfl rfl).1,
   (claim_c10 " " "ep" c10PollState whitespaceScript4Record
      rfl (by decide) rfl rfl rfl rfl rfl rfl rfl).2.2.1⟩

/-- The poll handler never reads or keeps the debug fields: running it on
a state whose lastError and detailedError were changed gives the same
result as changing them on the poll handler's output. -/
theorem checkForNewRow_debug (store : List DbRecord) (st : FormState)
    (e d : Option String) :
    checkForNewRow store { st with lastError := e, detailedError := d } =
    { checkForNewRow store st with lastError := e, detailedError := d } := by
  obtain ⟨f1, f2, f3, f4, f5, f6, f7, f8, f9, f10, f11, f12, f13, f14, f15,
    f16, f17, f18, f19⟩ := st
  unfold checkForNewRow
  dsimp only
  cases f12 with
  | none => rfl
  | some name =>
    dsimp only
    by_cases h1 : name.data.isEmpty = true
    · rw [if_pos h1, if_pos h1]
    · rw [if_neg h1, if_neg h1]
      by_cases h2 : (!f1 || f16 || f17) = true
      · rw [if_pos h2, if_pos h2]
      · rw [if_neg h2, if_neg h2]
        cases hp : pickMostRecent (List.filter
            (fun r => decide (r.episode_interview_file_name = some name)) store) with
        | none => rfl
        | some r =>
          dsimp only
          split <;> (try split) <;> simp [applyStatusFields]

/-- The poll handler only ever adds a non-destructive success toast. -/
theorem checkForNewRow_destructive (store : List DbRecord) (st : FormState) :
    destructiveCount (checkForNewRow store st).toasts =
    destructiveCount st.toasts := by
  obtain ⟨f1, f2, f3, f4, f5, f6, f7, f8, f9, f10, f11, f12, f13, f14, f15,
    f16, f17, f18, f19⟩ := st
  unfold checkForNewRow
  dsimp only
  cases f12 with
  | none => rfl
  | some name =>
    dsimp only
    by_cases h1 : name.data.isEmpty = true
    · rw [if_pos h1]
    · rw [if_neg h1]
      by_cases h2 : (!f1 || f16 || f17) = true
      · rw [if_pos h2]
      · rw [if_neg h2]
        cases hp : pickMostRecent (List.filter
            (fun r => decide (r.episode_interview_file_name = some name)) store) with
        | none => rfl
        | some r =>
          dsimp only
          split <;> (try split) <;>
            simp [applyStatusFields, destructiveCount, List.filter_append]

/-- Processing a webhook response never shows a toast. -/
theorem processWebhookResponse_toasts (payload : List DbRecord)
    (st : FormState) :
    (processWebhookResponse payload st).1.toasts = st.toasts := by
  unfold processWebhookResponse
  split
  · rfl
  · split
    · split
      · split <;> (try split) <;> simp [applyStatusFields]
      · rfl
    · rfl

/-- Claim C6: no webhook outcome adds a destructive toast, and every
failure outcome only records the error in the debug state and falls
through to the same immediate poll a plain checkForNewRow would perform -
the loading state, script links and latch end exactly as the poll leaves
them, and the error is stored. -/
theorem claim_c6 (store : List DbRecord) (st : FormState) (o : WebhookOutcome) :
    destructiveCount (webhookPhase store o st).toasts =
      destructiveCount st.toasts ∧
    (o.isFailure = true →
      (webhookPhase store o st).isSubmitting =
        (checkForNewRow store st).isSubmitting ∧
      (webhookPhase store o st).scriptLinks =
        (checkForNewRow store st).scriptLinks ∧
      (webhookPhase store o st).foundMatchingRecord =
        (checkForNewRow store st).foundMatchingRecord ∧
      (webhookPhase store o st).lastError ≠ none) := by
  cases o with
  | httpError status errText =>
    constructor
    · show destructiveCount (checkForNewRow store _).toasts = _
      rw [checkForNewRow_debug]
      exact checkForNewRow_destructive store st
    · intro _
      dsimp only [webhookPhase]
      rw [checkForNewRow_debug]
      exact ⟨rfl, rfl, rfl, by simp⟩
  | okParseFailure msg =>
    constructor
    · show destructiveCount (checkForNewRow store _).toasts = _
      rw [checkForNewRow_debug]
      exact checkForNewRow_destructive store st
    · intro _
      dsimp only [webhookPhase]
      rw [checkForNewRow_debug]
      exact ⟨rfl, rfl, rfl, by simp⟩
  | netError msg =>
    constructor
    · show destructiveCount (checkForNewRow store _).toasts = _
      rw [checkForNewRow_debug]
      exact checkForNewRow_destructive store st
    · intro _
      dsimp only [webhookPhase]
      rw [checkForNewRow_debug]
      exact ⟨rfl, rfl, rfl, by simp⟩
  | okParsed payload =>
    constructor
    · show destructiveCount (checkForNewRow store _).toasts = _
      rw [checkForNewRow_destructive]
      have hif : ∀ (b : Bool) (x : FormState),
          (if b = true then
            { x with intervalActive := false, timeoutActive := false }
          else x).toasts = x.toasts := by
        intro b x
        split <;> rfl
      rw [hif]
      rw [processWebhookResponse_toasts]
    · intro hf
      simp [WebhookOutcome.isFailure] at hf

/-- Witness for claim C6 at a thrown network error against an empty store:
the error lands in the debug state, nothing else. -/
theorem claim_c6_witness :
    (webhookPhase [] (WebhookOutcome.netError "connection refused")
      idleState).lastError ≠ none :=
  ((claim_c6 [] idleState (WebhookOutcome.netError "connection refused")).2
    rfl).2.2.2
